import Mathlib

/-!
Shallow embedding of `src/py.py`, the FatSecret API client, and proofs about
its normalization layer, token cache and search client.

JSON values decoded by `response.json()` are modelled by `PyVal` (the fragment
relevant to this client: null, strings, integers, lists, objects).  Python
exceptions that can escape the modelled code are `PyExc`; `FatSecretError`
plus an uncaught Python exception form `PyErr`.  Network interactions are
modelled by passing the provider's response (success JSON or transport/HTTP
failure) as an explicit argument, and each operation reports whether it
contacted a provider.
-/

/-- A Python/JSON value as produced by `response.json()`: `None`, `str`,
`int`, `list`, or `dict` (an ordered association list, as Python dicts
preserve insertion order). -/
inductive PyVal where
  | none : PyVal
  | str (s : String) : PyVal
  | int (n : Int) : PyVal
  | list (xs : List PyVal) : PyVal
  | dict (fs : List (String × PyVal)) : PyVal
deriving Repr

/-- Structural equality on `PyVal`, modelling Python `==` on JSON data
(used by `dict.__setitem__` key comparison). -/
def PyVal.beq : PyVal → PyVal → Bool
  | .none, .none => true
  | .str a, .str b => a == b
  | .int a, .int b => a == b
  | .list [], .list [] => true
  | .list (a :: as), .list (b :: bs) => PyVal.beq a b && PyVal.beq (.list as) (.list bs)
  | .dict [], .dict [] => true
  | .dict ((k, v) :: as), .dict ((k2, v2) :: bs) =>
      k == k2 && PyVal.beq v v2 && PyVal.beq (.dict as) (.dict bs)
  | _, _ => false

/-- Python truthiness (`bool(v)`) on the modelled values: `None`, `""`, `0`,
`[]` and `{}` are falsy, everything else truthy. -/
def pyTruthy : PyVal → Bool
  | .none => false
  | .str s => !s.isEmpty
  | .int n => n != 0
  | .list [] => false
  | .list (_ :: _) => true
  | .dict [] => false
  | .dict (_ :: _) => true

/-- `isinstance(v, list)`. -/
def isinstance_list : PyVal → Bool
  | .list _ => true
  | _ => false

/-- First binding of key `k` in an ordered dict (JSON objects have unique
keys; Python's `dict.get` / `__getitem__` lookup). -/
def lookupField : List (String × PyVal) → String → Option PyVal
  | [], _ => Option.none
  | (k0, v) :: rest, k => if k0 = k then some v else lookupField rest k

/-- `fs.get(k, d)` on a dict's fields. -/
def pyGetD (fs : List (String × PyVal)) (k : String) (d : PyVal) : PyVal :=
  match lookupField fs k with
  | some v => v
  | Option.none => d

/-- Python exceptions that can escape the modelled code. -/
inductive PyExc where
  | typeError : PyExc
  | valueError : PyExc
  | attributeError : PyExc
  | invalidOperation : PyExc
  | keyError (key : String) : PyExc
deriving DecidableEq, Repr

/-- `v.get(k, d)`: dict lookup with default; calling `.get` on a non-dict
raises `AttributeError`. -/
def pyGet (v : PyVal) (k : String) (d : PyVal) : Except PyExc PyVal :=
  match v with
  | .dict fs => .ok (pyGetD fs k d)
  | _ => .error .attributeError

/-- `v[k]` subscription with a string key: `KeyError` when a dict lacks the
key, `TypeError` when `v` is not a dict (`str`/`list`/`None`/`int` all
reject a string index). -/
def pySubscript (v : PyVal) (k : String) : Except PyExc PyVal :=
  match v with
  | .dict fs =>
      match lookupField fs k with
      | some x => .ok x
      | Option.none => .error (.keyError k)
  | _ => .error .typeError

/-- Whether a value can be a dict key (`hash(v)` succeeds): lists and dicts
are unhashable. -/
def pyHashable : PyVal → Bool
  | .list _ => false
  | .dict _ => false
  | _ => true

/-- `k in v` for a dict receiver.  In the modelled code this is only reached
after the receiver has already been used as a dict (`.get` calls), so the
non-dict branches are unreachable there. -/
def pyContains (v : PyVal) (k : String) : Bool :=
  match v with
  | .dict fs => fs.any (fun f => f.1 == k)
  | _ => false

/-- Whitespace stripped by `str.strip()` (ASCII subset, which covers the
inputs of interest). -/
def isPyWs (c : Char) : Bool :=
  c = ' ' || c = '\t' || c = '\n' || c = '\r' || c = '\x0b' || c = '\x0c'

/-- Leading and trailing whitespace removal, as `str.strip()`. -/
def stripWs (cs : List Char) : List Char :=
  ((cs.dropWhile isPyWs).reverse.dropWhile isPyWs).reverse

/-- CPython's rule for underscores in numeric strings (both `int()` and
`Decimal()`): every `_` must be directly preceded and followed by a digit.
`prev` is the character before the current position. -/
def underscoresOk : Option Char → List Char → Bool
  | _, [] => true
  | prev, c :: rest =>
    if c = '_' then
      (match prev with
       | some p => p.isDigit
       | Option.none => false)
      && (match rest with
          | d :: _ => d.isDigit
          | [] => false)
      && underscoresOk (some c) rest
    else underscoresOk (some c) rest

/-- Numeric value of a digit string (most significant first). -/
def digitsToNat (cs : List Char) : Nat :=
  cs.foldl (fun n c => 10 * n + (c.toNat - 48)) 0

/-- `int(v)` on the modelled values: identity on `int`; on `str`, strip
whitespace, validate underscores, optional sign then decimal digits, else
`ValueError`; `TypeError` on `None`, lists and dicts. -/
def pyInt : PyVal → Except PyExc Int
  | .int n => .ok n
  | .str s =>
      let cs := stripWs s.toList
      if underscoresOk Option.none cs = false then .error .valueError else
      let cs2 := cs.filter (fun c => c ≠ '_')
      let p : Bool × List Char :=
        match cs2 with
        | '+' :: r => (false, r)
        | '-' :: r => (true, r)
        | r => (false, r)
      if p.2 ≠ [] ∧ p.2.all Char.isDigit then
        .ok (if p.1 then -(digitsToNat p.2 : Int) else (digitsToNat p.2 : Int))
      else .error .valueError
  | _ => .error .typeError

/-- A `decimal.Decimal` value: finite (sign, coefficient, exponent),
infinity, or (signaling) NaN with a payload. -/
inductive Dec where
  | finite (sign : Bool) (coeff : Nat) (exp : Int) : Dec
  | infinity (sign : Bool) : Dec
  | nan (signaling : Bool) (sign : Bool) (payload : Nat) : Dec
deriving DecidableEq, Repr

/-- Exponent part after the `e`/`E` indicator: optional sign then digits. -/
def parseExpPart (cs : List Char) : Option Int :=
  let p : Bool × List Char :=
    match cs with
    | '+' :: r => (false, r)
    | '-' :: r => (true, r)
    | r => (false, r)
  if p.2 ≠ [] ∧ p.2.all Char.isDigit then
    some (if p.1 then -(digitsToNat p.2 : Int) else (digitsToNat p.2 : Int))
  else Option.none

/-- Coefficient and exponent of a finite numeric string after the sign:
`digits [. digits]` or `. digits`, with an optional exponent part. -/
def parseCoeffExp (cs : List Char) : Option (Nat × Int) :=
  let ip := cs.takeWhile Char.isDigit
  let rest := cs.dropWhile Char.isDigit
  match rest with
  | [] => if ip = [] then Option.none else some (digitsToNat ip, 0)
  | '.' :: r2 =>
      let fp := r2.takeWhile Char.isDigit
      let r3 := r2.dropWhile Char.isDigit
      if ip = [] ∧ fp = [] then Option.none
      else
        match r3 with
        | [] => some (digitsToNat (ip ++ fp), -(fp.length : Int))
        | e :: r4 =>
            if e = 'e' ∨ e = 'E' then
              match parseExpPart r4 with
              | some ex => some (digitsToNat (ip ++ fp), ex - fp.length)
              | Option.none => Option.none
            else Option.none
  | e :: r4 =>
      if (e = 'e' ∨ e = 'E') ∧ ip ≠ [] then
        match parseExpPart r4 with
        | some ex => some (digitsToNat ip, ex)
        | Option.none => Option.none
      else Option.none

/-- The numeric-string grammar accepted by `Decimal(str)`: optional
whitespace and sign, then a finite number, `Inf`/`Infinity`, or
`[s]NaN[digits]` (case-insensitive), with CPython's underscore rule. -/
def parseDecimal (s : String) : Option Dec :=
  let cs0 := stripWs s.toList
  if underscoresOk Option.none cs0 = false then Option.none else
  let cs1 := cs0.filter (fun c => c ≠ '_')
  let p : Bool × List Char :=
    match cs1 with
    | '+' :: r => (false, r)
    | '-' :: r => (true, r)
    | r => (false, r)
  let low := p.2.map Char.toLower
  if low = ['i', 'n', 'f'] ∨ low = ['i', 'n', 'f', 'i', 'n', 'i', 't', 'y'] then
    some (.infinity p.1)
  else
    match low with
    | 'n' :: 'a' :: 'n' :: ds =>
        if ds.all Char.isDigit then some (.nan false p.1 (digitsToNat ds)) else Option.none
    | 's' :: 'n' :: 'a' :: 'n' :: ds =>
        if ds.all Char.isDigit then some (.nan true p.1 (digitsToNat ds)) else Option.none
    | _ =>
        match parseCoeffExp p.2 with
        | some ce => some (.finite p.1 ce.1 ce.2)
        | Option.none => Option.none

/-- `Decimal(v)`: parse a string (raising `decimal.InvalidOperation` — a
subclass of `ArithmeticError`, not of `ValueError` — on a malformed string),
convert an int exactly, and raise `TypeError` on unsupported types
(`None`, lists, dicts). -/
def Decimal_conv (v : PyVal) : Except PyExc Dec :=
  match v with
  | .str s =>
      match parseDecimal s with
      | some d => .ok d
      | Option.none => .error .invalidOperation
  | .int n => .ok (.finite (decide (n < 0)) n.natAbs 0)
  | _ => .error .typeError

/-- `FatSecretAPI._decimal_or_none` (src/py.py lines 119-124):
`try: return Decimal(value) if value is not None else None
except (TypeError, ValueError): return None`.
Note the `except` clause does not cover `decimal.InvalidOperation`, so a
malformed string propagates that exception. -/
def _decimal_or_none (value : PyVal) : Except PyExc (Option Dec) :=
  match value with
  | .none => .ok Option.none
  | v =>
      match Decimal_conv v with
      | .ok d => .ok (some d)
      | .error .typeError => .ok Option.none
      | .error .valueError => .ok Option.none
      | .error e => .error e

/-- The repeated-field normalization used (with identical inline code) for
allergens, preferences, servings, images and sub-categories in
`_parse_food_item` (src/py.py lines 187-188, 195-196, 202-203, 209-210,
219-220): `if not isinstance(x, list): x = [x] if x else []`. -/
def normalizeRepeated (v : PyVal) : List PyVal :=
  match v with
  | .list xs => xs
  | v => if pyTruthy v then [v] else []

/-- `d[k] = x` on a Python dict modelled as an ordered association list:
an existing (equal) key keeps its position and original key object, a new
key is appended. -/
def assocSet : List (PyVal × Int) → PyVal → Int → List (PyVal × Int)
  | [], k, x => [(k, x)]
  | (k0, x0) :: rest, k, x =>
      if PyVal.beq k0 k then (k0, x) :: rest else (k0, x0) :: assocSet rest k x

/-- The loop shared by allergens and preferences (src/py.py lines 189-190
and 197-198): `for a in data: acc[a['name']] = int(a['value'])`.  Python
evaluates the right-hand side first, so a missing `value` key is reported
before a missing `name` key; storing under an unhashable name raises
`TypeError` at the assignment. -/
def parseAttrEntries : List PyVal → List (PyVal × Int) → Except PyExc (List (PyVal × Int))
  | [], acc => .ok acc
  | a :: rest, acc => do
      let v ← pySubscript a "value"
      let x ← pyInt v
      let n ← pySubscript a "name"
      if pyHashable n then parseAttrEntries rest (assocSet acc n x)
      else .error .typeError

/-- The `ImageInfo` dict built in `_parse_food_item` (src/py.py lines
212-215). -/
structure ImageInfo where
  image_url : PyVal
  image_type : PyVal
deriving Repr

/-- One iteration of the image loop (src/py.py lines 211-215). -/
def parseImage (image : PyVal) : Except PyExc ImageInfo := do
  let u ← pyGet image "image_url" (PyVal.str "")
  let t ← pyGet image "image_type" (PyVal.str "Standard")
  pure { image_url := u, image_type := t }

/-- The `ServingInfo` dict built by `_parse_serving` (src/py.py lines
150-180), field for field. -/
structure ServingInfo where
  serving_id : PyVal
  serving_description : PyVal
  serving_url : PyVal
  metric_serving_amount : Option Dec
  metric_serving_unit : PyVal
  number_of_units : Option Dec
  measurement_description : PyVal
  is_default : Option Int
  calories : Option Dec
  carbohydrate : Option Dec
  protein : Option Dec
  fat : Option Dec
  saturated_fat : Option Dec
  polyunsaturated_fat : Option Dec
  monounsaturated_fat : Option Dec
  trans_fat : Option Dec
  cholesterol : Option Dec
  sodium : Option Dec
  potassium : Option Dec
  fiber : Option Dec
  sugar : Option Dec
  added_sugars : Option Dec
  vitamin_d : Option Dec
  vitamin_a : Option Dec
  vitamin_c : Option Dec
  calcium : Option Dec
  iron : Option Dec
deriving Repr

/-- `self._decimal_or_none(serving.get(key))` — the call pattern used for
every nutrient field and the two amount fields in `_parse_serving`. -/
def decField (serving : PyVal) (key : String) : Except PyExc (Option Dec) := do
  let v ← pyGet serving key PyVal.none
  _decimal_or_none v

/-- `FatSecretAPI._parse_serving` (src/py.py lines 150-180).  The
`is_default` field is `int(serving.get('is_default', 0))` when the key is
present, else `None`. -/
def _parse_serving (serving : PyVal) : Except PyExc ServingInfo := do
  let serving_id ← pyGet serving "serving_id" (PyVal.str "")
  let serving_description ← pyGet serving "serving_description" (PyVal.str "")
  let serving_url ← pyGet serving "serving_url" (PyVal.str "")
  let metric_serving_amount ← decField serving "metric_serving_amount"
  let metric_serving_unit ← pyGet serving "metric_serving_unit" PyVal.none
  let number_of_units ← decField serving "number_of_units"
  let measurement_description ← pyGet serving "measurement_description" (PyVal.str "")
  let is_default ←
    if pyContains serving "is_default" then do
      let v ← pyGet serving "is_default" (PyVal.int 0)
      let n ← pyInt v
      pure (some n)
    else pure Option.none
  let calories ← decField serving "calories"
  let carbohydrate ← decField serving "carbohydrate"
  let protein ← decField serving "protein"
  let fat ← decField serving "fat"
  let saturated_fat ← decField serving "saturated_fat"
  let polyunsaturated_fat ← decField serving "polyunsaturated_fat"
  let monounsaturated_fat ← decField serving "monounsaturated_fat"
  let trans_fat ← decField serving "trans_fat"
  let cholesterol ← decField serving "cholesterol"
  let sodium ← decField serving "sodium"
  let potassium ← decField serving "potassium"
  let fiber ← decField serving "fiber"
  let sugar ← decField serving "sugar"
  let added_sugars ← decField serving "added_sugars"
  let vitamin_d ← decField serving "vitamin_d"
  let vitamin_a ← decField serving "vitamin_a"
  let vitamin_c ← decField serving "vitamin_c"
  let calcium ← decField serving "calcium"
  let iron ← decField serving "iron"
  pure { serving_id := serving_id, serving_description := serving_description,
         serving_url := serving_url, metric_serving_amount := metric_serving_amount,
         metric_serving_unit := metric_serving_unit, number_of_units := number_of_units,
         measurement_description := measurement_description, is_default := is_default,
         calories := calories, carbohydrate := carbohydrate, protein := protein,
         fat := fat, saturated_fat := saturated_fat,
         polyunsaturated_fat := polyunsaturated_fat,
         monounsaturated_fat := monounsaturated_fat, trans_fat := trans_fat,
         cholesterol := cholesterol, sodium := sodium, potassium := potassium,
         fiber := fiber, sugar := sugar, added_sugars := added_sugars,
         vitamin_d := vitamin_d, vitamin_a := vitamin_a, vitamin_c := vitamin_c,
         calcium := calcium, iron := iron }

/-- The `FoodItem` dataclass (src/py.py lines 64-76).  `allergens` and
`preferences` are Python dicts keyed by the raw `name` values, modelled as
ordered association lists. -/
structure FoodItem where
  food_id : PyVal
  food_name : PyVal
  brand_name : PyVal
  food_type : PyVal
  food_url : PyVal
  food_sub_categories : Option (List PyVal)
  images : List ImageInfo
  servings : List ServingInfo
  allergens : List (PyVal × Int)
  preferences : List (PyVal × Int)
deriving Repr

/-- `FatSecretAPI._parse_food_item` (src/py.py lines 182-233), preserving
the source's evaluation order: allergens, preferences, servings, images,
sub-categories, then the scalar fields of the `FoodItem(...)` call. -/
def _parse_food_item (food : PyVal) : Except PyExc FoodItem := do
  let fa1 ← pyGet food "food_attributes" (PyVal.dict [])
  let al1 ← pyGet fa1 "allergens" (PyVal.dict [])
  let alv ← pyGet al1 "allergen" (PyVal.list [])
  let allergens ← parseAttrEntries (normalizeRepeated alv) []
  let fa2 ← pyGet food "food_attributes" (PyVal.dict [])
  let pr1 ← pyGet fa2 "preferences" (PyVal.dict [])
  let prv ← pyGet pr1 "preference" (PyVal.list [])
  let preferences ← parseAttrEntries (normalizeRepeated prv) []
  let sv1 ← pyGet food "servings" (PyVal.dict [])
  let svv ← pyGet sv1 "serving" (PyVal.list [])
  let servings ← (normalizeRepeated svv).mapM _parse_serving
  let im1 ← pyGet food "food_images" (PyVal.dict [])
  let imv ← pyGet im1 "food_image" (PyVal.list [])
  let images ← (normalizeRepeated imv).mapM parseImage
  let sc1 ← pyGet food "food_sub_categories" (PyVal.dict [])
  let scv ← pyGet sc1 "food_sub_category" (PyVal.list [])
  let sub_categories := normalizeRepeated scv
  let food_id ← pyGet food "food_id" (PyVal.str "")
  let food_name ← pyGet food "food_name" (PyVal.str "")
  let brand_name ← pyGet food "brand_name" PyVal.none
  let food_type ← pyGet food "food_type" (PyVal.str "Generic")
  let food_url ← pyGet food "food_url" (PyVal.str "")
  pure { food_id := food_id, food_name := food_name, brand_name := brand_name,
         food_type := food_type, food_url := food_url,
         food_sub_categories :=
           match sub_categories with
           | [] => Option.none
           | l => some l,
         images := images, servings := servings,
         allergens := allergens, preferences := preferences }

/-- The `FatSecretError.ERROR_MESSAGES` table (src/py.py lines 80-92). -/
def ERROR_MESSAGES (code : Nat) : Option String :=
  match code with
  | 2 => some "Missing required OAuth parameter"
  | 3 => some "Unsupported OAuth parameter"
  | 4 => some "Invalid signature method"
  | 5 => some "Invalid consumer key"
  | 6 => some "Invalid/expired timestamp"
  | 7 => some "Invalid/used nonce"
  | 8 => some "Invalid signature"
  | 9 => some "Invalid access token"
  | 13 => some "Invalid OAuth 2.0 token"
  | 14 => some "Missing OAuth 2.0 scope"
  | 107 => some "Parameter value out of range"
  | _ => Option.none

/-- The message assembled by `FatSecretError.__init__` (src/py.py lines
94-100): the table entry (or "Unknown error") plus `": details"` when the
details string is truthy. -/
def fatSecretErrorMessage (code : Nat) (details : String) : String :=
  let base := (ERROR_MESSAGES code).getD "Unknown error"
  if details = "" then base else base ++ ": " ++ details

/-- An error escaping an API operation: a raised `FatSecretError(code,
details)` or an uncaught Python exception. -/
inductive PyErr where
  | fatSecretError (code : Nat) (details : String) : PyErr
  | uncaught (e : PyExc) : PyErr
deriving DecidableEq, Repr

/-- A provider's reaction to one HTTP request: a transport/HTTP-status
failure (any `requests.exceptions.RequestException`, carrying `str(e)`), or
a success whose body decodes to the given JSON value. -/
inductive HttpResp where
  | failure (msg : String) : HttpResp
  | success (json : PyVal) : HttpResp

/-- The token cache fields of `FatSecretAPI` (src/py.py lines 116-117):
`_token` is whatever `data.get("access_token")` produced (initially
`None`), `_token_expiry` an optional timestamp in seconds. -/
structure TokenState where
  _token : PyVal
  _token_expiry : Option Nat
deriving Repr

/-- Outcome of one `get_access_token` call: the returned token or the error
raised, the cache state afterwards, and whether the token provider was
contacted. -/
structure TokenResult where
  result : Except PyErr PyVal
  state : TokenState
  providerCalled : Bool
deriving Repr

/-- The guard on src/py.py line 128:
`if self._token and self._token_expiry and datetime.now() < self._token_expiry`. -/
def tokenCacheValid (st : TokenState) (now : Nat) : Bool :=
  pyTruthy st._token &&
    match st._token_expiry with
    | some e => decide (now < e)
    | Option.none => false

/-- `FatSecretAPI.get_access_token` (src/py.py lines 126-148).  Time is a
`Nat` in seconds; the two `datetime.now()` reads within one call are
modelled as the single instant `now`, and `timedelta(hours=23)` as 82800
seconds.  A `RequestException` (transport, `raise_for_status`, JSON decode)
becomes `FatSecretError(13, str(e))`; on success the token is
`data.get("access_token")` (so an `AttributeError` if the body is not an
object) and the expiry `now + 23h`, assigned in that order. -/
def get_access_token (st : TokenState) (now : Nat) (resp : HttpResp) : TokenResult :=
  if tokenCacheValid st now then
    { result := .ok st._token, state := st, providerCalled := false }
  else
    match resp with
    | .failure msg =>
        { result := .error (.fatSecretError 13 msg), state := st, providerCalled := true }
    | .success data =>
        match pyGet data "access_token" PyVal.none with
        | .error e => { result := .error (.uncaught e), state := st, providerCalled := true }
        | .ok tok =>
            { result := .ok tok,
              state := { _token := tok, _token_expiry := some (now + 82800) },
              providerCalled := true }

/-- The two collaborators a `search_food` call may contact. -/
structure SearchEnv where
  tokenResp : HttpResp
  searchResp : HttpResp

/-- Outcome of one `search_food` call: result or raised error, cache state
afterwards, and which providers were contacted. -/
structure SearchResult where
  result : Except PyErr (List FoodItem)
  state : TokenState
  tokenProviderCalled : Bool
  searchProviderCalled : Bool
deriving Repr

/-- `FatSecretAPI.search_food` (src/py.py lines 235-275): range-check
`max_results`, obtain a token, issue the search call, then decode
`foods_search`: an `int(total_results)` of zero yields `[]`, otherwise
`results.food` is normalized and each hit parsed by `_parse_food_item`.
Only `RequestException` is caught (as `FatSecretError(13, str(e))`); any
exception from the decoding itself propagates uncaught. -/
def search_food (st : TokenState) (now : Nat) (query : String)
    (max_results : Int) (page_number : Int) (env : SearchEnv) : SearchResult :=
  if ¬ (1 ≤ max_results ∧ max_results ≤ 50) then
    { result := .error (.fatSecretError 107 "max_results must be between 1 and 50"),
      state := st, tokenProviderCalled := false, searchProviderCalled := false }
  else
    let t := get_access_token st now env.tokenResp
    match t.result with
    | .error e =>
        { result := .error e, state := t.state,
          tokenProviderCalled := t.providerCalled, searchProviderCalled := false }
    | .ok _ =>
        match env.searchResp with
        | .failure msg =>
            { result := .error (.fatSecretError 13 msg), state := t.state,
              tokenProviderCalled := t.providerCalled, searchProviderCalled := true }
        | .success data =>
            let body : Except PyExc (List FoodItem) := do
              let sr ← pyGet data "foods_search" (PyVal.dict [])
              let trv ← pyGet sr "total_results" (PyVal.int 0)
              let tr ← pyInt trv
              if tr = 0 then pure []
              else do
                let rv ← pyGet sr "results" (PyVal.dict [])
                let fv ← pyGet rv "food" (PyVal.list [])
                (normalizeRepeated fv).mapM _parse_food_item
            { result := body.mapError .uncaught, state := t.state,
              tokenProviderCalled := t.providerCalled, searchProviderCalled := true }

/-- C1: the claim that Scalar Coercion is total is wrong on the code.
`_decimal_or_none` (and its own docstring) promise to return absent for
invalid values, but `Decimal("abc")` raises `decimal.InvalidOperation`,
which is not covered by the `except (TypeError, ValueError)` clause, so the
malformed string propagates an exception instead of becoming absent.
Absent input and wrongly-typed input are normalized to absent as claimed;
a valid decimal string is parsed. -/
theorem decimal_or_none_raises_on_malformed :
    _decimal_or_none (PyVal.str "abc") = Except.error PyExc.invalidOperation
  ∧ _decimal_or_none PyVal.none = Except.ok Option.none
  ∧ _decimal_or_none (PyVal.list []) = Except.ok Option.none
  ∧ _decimal_or_none (PyVal.str "12.5") = Except.ok (some (Dec.finite false 125 (-1))) :=
  ⟨rfl, rfl, rfl, rfl⟩

/-- C2, counterexample: a falsy single object is not normalized like the
one-element list containing it.  The empty object `{}` yields the empty
sequence, while `[{}]` yields a one-element sequence, so singleton-object
and one-element-list encodings of `{}` disagree. -/
theorem normalizeRepeated_falsy_singleton_counterexample :
    normalizeRepeated (PyVal.dict []) = []
  ∧ normalizeRepeated (PyVal.list [PyVal.dict []]) = [PyVal.dict []]
  ∧ normalizeRepeated (PyVal.dict []) ≠ normalizeRepeated (PyVal.list [PyVal.dict []]) :=
  ⟨rfl, rfl, by simp [normalizeRepeated, pyTruthy]⟩

/-- C2, amended: for every truthy (in particular, non-empty-object) single
non-list value, normalization agrees with the one-element-list encoding;
every falsy raw value — absent (`None`), an empty object, empty string or
empty list — yields the empty sequence, never a sequence with one
null/empty element. -/
theorem normalizeRepeated_singleton_agreement (v : PyVal)
    (hnl : isinstance_list v = false) :
    (pyTruthy v = true → normalizeRepeated v = normalizeRepeated (PyVal.list [v]))
  ∧ (pyTruthy v = false → normalizeRepeated v = []) := by
  cases v with
  | list xs => simp [isinstance_list] at hnl
  | none => simp [normalizeRepeated, pyTruthy]
  | str s => constructor <;> intro h <;> simp [normalizeRepeated, h]
  | int n => constructor <;> intro h <;> simp [normalizeRepeated, h]
  | dict fs => constructor <;> intro h <;> simp [normalizeRepeated, h]

/-- C2, witness: a non-empty object is normalized identically to the
one-element list containing it, and `None` yields the empty sequence. -/
theorem normalizeRepeated_singleton_agreement_witness :
    normalizeRepeated (PyVal.dict [("a", PyVal.str "b")])
      = normalizeRepeated (PyVal.list [PyVal.dict [("a", PyVal.str "b")]])
  ∧ normalizeRepeated PyVal.none = [] :=
  ⟨(normalizeRepeated_singleton_agreement (PyVal.dict [("a", PyVal.str "b")]) rfl).1 rfl,
   (normalizeRepeated_singleton_agreement PyVal.none rfl).2 rfl⟩

/-- C5: a `search_food` call with `max_results` outside 1..50 raises
`FatSecretError(107, ...)` — whose kind 107 reads "Parameter value out of
range" — contacting neither the token provider nor the search provider and
leaving the token cache unchanged. -/
theorem search_food_range_check (st : TokenState) (now : Nat) (query : String)
    (max_results page_number : Int) (env : SearchEnv)
    (h : max_results < 1 ∨ 50 < max_results) :
    (search_food st now query max_results page_number env).result
        = Except.error (PyErr.fatSecretError 107 "max_results must be between 1 and 50")
  ∧ (search_food st now query max_results page_number env).tokenProviderCalled = false
  ∧ (search_food st now query max_results page_number env).searchProviderCalled = false
  ∧ (search_food st now query max_results page_number env).state = st
  ∧ ERROR_MESSAGES 107 = some "Parameter value out of range" := by
  have hc : ¬ (1 ≤ max_results ∧ max_results ≤ 50) := by omega
  unfold search_food
  rw [if_pos hc]
  exact ⟨rfl, rfl, rfl, rfl, rfl⟩

/-- C5, witness: `max_results = 0` contacts no provider and `max_results =
51` raises the parameter error. -/
theorem search_food_range_check_witness :
    (search_food ⟨PyVal.none, Option.none⟩ 0 "apple" 0 0
        ⟨HttpResp.failure "a", HttpResp.failure "b"⟩).tokenProviderCalled = false
  ∧ (search_food ⟨PyVal.none, Option.none⟩ 0 "apple" 51 0
        ⟨HttpResp.failure "a", HttpResp.failure "b"⟩).result
      = Except.error (PyErr.fatSecretError 107 "max_results must be between 1 and 50") :=
  ⟨(search_food_range_check ⟨PyVal.none, Option.none⟩ 0 "apple" 0 0
      ⟨HttpResp.failure "a", HttpResp.failure "b"⟩ (Or.inl (by norm_num))).2.1,
   (search_food_range_check ⟨PyVal.none, Option.none⟩ 0 "apple" 51 0
      ⟨HttpResp.failure "a", HttpResp.failure "b"⟩ (Or.inr (by norm_num))).1⟩

/-- C6: when the cached token is present and the current time is before the
cached expiry, `get_access_token` returns the cached token, leaves the
cache unchanged and does not contact the provider; otherwise it performs
exactly one credential-exchange call and, on success, caches the returned
token with expiry `now + 23h` (82800 s).  Consequently a second call within
the new validity window (with a truthy cached token) contacts the provider
no further time, so two consecutive calls invoke it at most once. -/
theorem get_access_token_cache_behavior (st : TokenState) (now : Nat) (resp : HttpResp) :
    (tokenCacheValid st now = true →
        (get_access_token st now resp).result = Except.ok st._token
      ∧ (get_access_token st now resp).state = st
      ∧ (get_access_token st now resp).providerCalled = false)
  ∧ (tokenCacheValid st now = false →
        (get_access_token st now resp).providerCalled = true
      ∧ ∀ json tok, resp = HttpResp.success json →
          pyGet json "access_token" PyVal.none = Except.ok tok →
            (get_access_token st now resp).result = Except.ok tok
          ∧ (get_access_token st now resp).state = ⟨tok, some (now + 82800)⟩
          ∧ (pyTruthy tok = true → ∀ now2 resp2, now2 < now + 82800 →
              (get_access_token ⟨tok, some (now + 82800)⟩ now2 resp2).providerCalled
                = false)) := by
  constructor
  · intro h
    simp [get_access_token, h]
  · intro h
    constructor
    · simp only [get_access_token, h]
      cases resp with
      | failure msg => simp
      | success json => cases hg : pyGet json "access_token" PyVal.none <;> simp [hg]
    · intro json tok hresp hget
      subst hresp
      refine ⟨?_, ?_, ?_⟩
      · simp [get_access_token, h, hget]
      · simp [get_access_token, h, hget]
      · intro htok now2 resp2 hlt
        simp [get_access_token, tokenCacheValid, htok, hlt]

/-- C6, witness: starting from an empty cache, one call caches the returned
token with expiry 82800, and a second call 100 seconds later makes no
provider call. -/
theorem get_access_token_cache_behavior_witness :
    (get_access_token ⟨PyVal.none, Option.none⟩ 0
        (HttpResp.success (PyVal.dict [("access_token", PyVal.str "T")]))).state
      = ⟨PyVal.str "T", some 82800⟩
  ∧ (get_access_token ⟨PyVal.str "T", some 82800⟩ 100 (HttpResp.failure "x")).providerCalled
      = false :=
  ⟨(((get_access_token_cache_behavior ⟨PyVal.none, Option.none⟩ 0
        (HttpResp.success (PyVal.dict [("access_token", PyVal.str "T")]))).2 rfl).2
      (PyVal.dict [("access_token", PyVal.str "T")]) (PyVal.str "T") rfl rfl).2.1,
   (((get_access_token_cache_behavior ⟨PyVal.none, Option.none⟩ 0
        (HttpResp.success (PyVal.dict [("access_token", PyVal.str "T")]))).2 rfl).2
      (PyVal.dict [("access_token", PyVal.str "T")]) (PyVal.str "T") rfl rfl).2.2 rfl 100
      (HttpResp.failure "x") (by norm_num)⟩

/-- C8: when the cache is stale and the token exchange fails (transport
failure or non-success HTTP response), `get_access_token` raises
`FatSecretError(13, ...)` — kind 13 reads "Invalid OAuth 2.0 token" — and
the cached token/expiry pair is left exactly as it was. -/
theorem get_access_token_failure_state (st : TokenState) (now : Nat) (msg : String)
    (h : tokenCacheValid st now = false) :
    (get_access_token st now (HttpResp.failure msg)).result
        = Except.error (PyErr.fatSecretError 13 msg)
  ∧ (get_access_token st now (HttpResp.failure msg)).state = st
  ∧ ERROR_MESSAGES 13 = some "Invalid OAuth 2.0 token" :=
  ⟨by simp [get_access_token, h], by simp [get_access_token, h], rfl⟩

/-- C8, witness: a failing exchange from an empty cache raises the
authentication error and leaves the cache empty. -/
theorem get_access_token_failure_state_witness :
    (get_access_token ⟨PyVal.none, Option.none⟩ 0 (HttpResp.failure "boom")).result
        = Except.error (PyErr.fatSecretError 13 "boom")
  ∧ (get_access_token ⟨PyVal.none, Option.none⟩ 0 (HttpResp.failure "boom")).state
        = ⟨PyVal.none, Option.none⟩ :=
  ⟨(get_access_token_failure_state ⟨PyVal.none, Option.none⟩ 0 "boom" rfl).1,
   (get_access_token_failure_state ⟨PyVal.none, Option.none⟩ 0 "boom" rfl).2.1⟩

/-- C10: `get_access_token` skips the provider exactly when the cached
token is truthy (present and non-empty) and the cached expiry exists and
lies strictly in the future; in particular a cached `None` or empty-string
token forces a fresh exchange even with a future expiry. -/
theorem token_cache_validity_iff (st : TokenState) (now : Nat) (resp : HttpResp) :
    ((get_access_token st now resp).providerCalled = false ↔
        pyTruthy st._token = true ∧ ∃ e, st._token_expiry = some e ∧ now < e)
  ∧ ((st._token = PyVal.none ∨ st._token = PyVal.str "") →
        (get_access_token st now resp).providerCalled = true) := by
  have hiff : tokenCacheValid st now = true ↔
      (pyTruthy st._token = true ∧ ∃ e, st._token_expiry = some e ∧ now < e) := by
    unfold tokenCacheValid
    cases hex : st._token_expiry with
    | none => simp
    | some e => simp [Bool.and_eq_true]
  have hcall : (get_access_token st now resp).providerCalled = !(tokenCacheValid st now) := by
    cases hv : tokenCacheValid st now with
    | false =>
        simp only [get_access_token, hv]
        cases resp with
        | failure msg => simp
        | success json => cases hg : pyGet json "access_token" PyVal.none <;> simp [hg]
    | true => simp [get_access_token, hv]
  constructor
  · rw [hcall, ← hiff]
    cases tokenCacheValid st now <;> simp
  · intro h0
    rw [hcall]
    have ht : pyTruthy st._token = false := by
      rcases h0 with h0 | h0 <;> rw [h0] <;> rfl
    unfold tokenCacheValid
    simp [ht]

/-- C10, witness: a cached `None` token with a future expiry still contacts
the provider. -/
theorem token_cache_validity_iff_witness :
    (get_access_token ⟨PyVal.none, some 99⟩ 0 (HttpResp.failure "x")).providerCalled = true :=
  (token_cache_validity_iff ⟨PyVal.none, some 99⟩ 0 (HttpResp.failure "x")).2 (Or.inl rfl)

/-- Decomposition of a successful `Except` bind, used to destructure the
parser's success cases. -/
theorem except_bind_ok {e : Type} {a : Type} {b : Type} (x : Except e a)
    (f : a → Except e b) (y : b) :
    (x >>= f) = Except.ok y ↔ ∃ z, x = Except.ok z ∧ f z = Except.ok y := by
  cases x <;> simp [Bind.bind, Except.bind]

/-- C3, counterexample: an unrecognized `food_type` value is not defaulted
to `Generic` — `food.get('food_type', 'Generic')` only substitutes the
default when the key is absent, so the value "Supermarket" passes through
unchanged into the built Food Item. -/
theorem food_type_passthrough_counterexample :
    (_parse_food_item (PyVal.dict [("food_type", PyVal.str "Supermarket")])).map
        FoodItem.food_type = Except.ok (PyVal.str "Supermarket")
  ∧ PyVal.str "Supermarket" ≠ PyVal.str "Generic" :=
  ⟨rfl, by intro hF; injection hF with hF2; exact absurd hF2 (by decide)⟩

/-- C3, amended: for every raw hit that builds successfully, the Food
Item's `food_type` is the raw `food_type` value when the key is present
(recognized or not), and `Generic` exactly when the key is absent. -/
theorem food_type_default_amended (food : PyVal) (item : FoodItem)
    (h : _parse_food_item food = Except.ok item) :
    ∃ fs, food = PyVal.dict fs
      ∧ item.food_type = pyGetD fs "food_type" (PyVal.str "Generic") := by
  cases food with
  | dict fs =>
      refine ⟨fs, rfl, ?_⟩
      simp only [_parse_food_item, pyGet, except_bind_ok, Except.ok.injEq, exists_eq_left',
        exists_eq_left, pure, Except.pure] at h
      obtain ⟨a, -, al, -, b, -, prefs, -, c, -, servs, -, d, -, imgs, -, e, -, f, -, g, -,
        hitem⟩ := h
      rw [← hitem]
  | none => simp [_parse_food_item, pyGet, Bind.bind, Except.bind] at h
  | str s => simp [_parse_food_item, pyGet, Bind.bind, Except.bind] at h
  | int n => simp [_parse_food_item, pyGet, Bind.bind, Except.bind] at h
  | list xs => simp [_parse_food_item, pyGet, Bind.bind, Except.bind] at h

/-- C3, witness: a hit without `food_type` builds with type `Generic`. -/
theorem food_type_default_amended_witness :
    ∃ fs, PyVal.dict [] = PyVal.dict fs
      ∧ ({ food_id := PyVal.str "", food_name := PyVal.str "", brand_name := PyVal.none,
           food_type := PyVal.str "Generic", food_url := PyVal.str "",
           food_sub_categories := Option.none, images := [], servings := [],
           allergens := [], preferences := [] } : FoodItem).food_type
          = pyGetD fs "food_type" (PyVal.str "Generic") :=
  food_type_default_amended (PyVal.dict [])
    { food_id := PyVal.str "", food_name := PyVal.str "", brand_name := PyVal.none,
      food_type := PyVal.str "Generic", food_url := PyVal.str "",
      food_sub_categories := Option.none, images := [], servings := [],
      allergens := [], preferences := [] } rfl

/-- C4, counterexample: an allergen entry that has a `name` can still make
the build fail loudly — `allergens[allergen['name']] = int(allergen['value'])`
evaluates the right-hand side first, so an entry `{"name": "Egg"}` without
a `value` key raises `KeyError('value')` even though the name is present. -/
theorem allergen_missing_value_counterexample :
    _parse_food_item (PyVal.dict [("food_attributes", PyVal.dict
        [("allergens", PyVal.dict [("allergen", PyVal.dict [("name", PyVal.str "Egg")])])])])
      = Except.error (PyExc.keyError "value") := rfl

/-- C4, amended: each allergen/preference entry's `value` is coerced with
`int(...)` and stored under the entry's `name`; the build fails loudly when
an entry lacks a `name`, but also when an entry's `value` is absent or not
integer-coercible.  Every entry with a `name` and an integer-coercible
`value` is parsed without error, yielding the name-to-tri-state mapping. -/
theorem allergen_entry_parses_amended (a : List (String × PyVal)) (n : String)
    (v : PyVal) (k : Int)
    (hn : lookupField a "name" = some (PyVal.str n))
    (hv : lookupField a "value" = some v)
    (hk : pyInt v = Except.ok k) :
    _parse_food_item (PyVal.dict [("food_attributes", PyVal.dict
        [("allergens", PyVal.dict [("allergen", PyVal.dict a)])])])
      = Except.ok { food_id := PyVal.str "", food_name := PyVal.str "",
                    brand_name := PyVal.none, food_type := PyVal.str "Generic",
                    food_url := PyVal.str "", food_sub_categories := Option.none,
                    images := [], servings := [],
                    allergens := [(PyVal.str n, k)], preferences := [] } := by
  cases a with
  | nil => simp [lookupField] at hn
  | cons x xs =>
    have h1 : pySubscript (PyVal.dict (x :: xs)) "value" = Except.ok v := by
      simp [pySubscript, hv]
    have h2 : pySubscript (PyVal.dict (x :: xs)) "name" = Except.ok (PyVal.str n) := by
      simp [pySubscript, hn]
    have h3 : parseAttrEntries [PyVal.dict (x :: xs)] [] = Except.ok [(PyVal.str n, k)] := by
      simp [parseAttrEntries, h1, h2, hk, pyHashable, assocSet, Bind.bind, Except.bind]
    simp [_parse_food_item, pyGet, pyGetD, lookupField, h3, normalizeRepeated, pyTruthy,
      parseAttrEntries, h1, h2, hk, pyHashable, assocSet,
      Bind.bind, Except.bind, pure, Except.pure, List.mapM, List.mapM.loop]

/-- C4, witness: the entry `{"name": "Egg", "value": "1"}` parses into the
mapping `{Egg: 1}`. -/
theorem allergen_entry_parses_amended_witness :
    _parse_food_item (PyVal.dict [("food_attributes", PyVal.dict
        [("allergens", PyVal.dict [("allergen", PyVal.dict
            [("name", PyVal.str "Egg"), ("value", PyVal.str "1")])])])])
      = Except.ok { food_id := PyVal.str "", food_name := PyVal.str "",
                    brand_name := PyVal.none, food_type := PyVal.str "Generic",
                    food_url := PyVal.str "", food_sub_categories := Option.none,
                    images := [], servings := [],
                    allergens := [(PyVal.str "Egg", 1)], preferences := [] } :=
  allergen_entry_parses_amended [("name", PyVal.str "Egg"), ("value", PyVal.str "1")]
    "Egg" (PyVal.str "1") 1 rfl rfl rfl

/-- C7: whenever the parameters pass the range check, the token step
succeeds and the search response's `total_results` coerces to zero,
`search_food` returns the empty list and raises nothing. -/
theorem search_food_zero_results (st : TokenState) (now : Nat) (query : String)
    (max_results page_number : Int) (tResp : HttpResp) (data sr trv tok : PyVal)
    (hmr : 1 ≤ max_results ∧ max_results ≤ 50)
    (htok : (get_access_token st now tResp).result = Except.ok tok)
    (h1 : pyGet data "foods_search" (PyVal.dict []) = Except.ok sr)
    (h2 : pyGet sr "total_results" (PyVal.int 0) = Except.ok trv)
    (h3 : pyInt trv = Except.ok 0) :
    (search_food st now query max_results page_number ⟨tResp, HttpResp.success data⟩).result
      = Except.ok [] := by
  unfold search_food
  rw [if_neg (not_not_intro hmr)]
  simp [htok, h1, h2, h3, Bind.bind, Except.bind, pure, Except.pure, Except.mapError]

/-- C7, witness: a response without `foods_search` (so `total_results`
defaults to 0) yields the empty list with a valid cached token. -/
theorem search_food_zero_results_witness :
    (search_food ⟨PyVal.str "T", some 10⟩ 5 "apple" 20 0
        ⟨HttpResp.failure "a", HttpResp.success (PyVal.dict [])⟩).result = Except.ok [] :=
  search_food_zero_results ⟨PyVal.str "T", some 10⟩ 5 "apple" 20 0 (HttpResp.failure "a")
    (PyVal.dict []) (PyVal.dict []) (PyVal.int 0) (PyVal.str "T")
    ⟨by norm_num, by norm_num⟩ rfl rfl rfl rfl

/-- C9: an image entry (any raw object) always parses: its URL is the raw
`image_url` or `""` when absent, and its type the raw `image_type` or
`Standard` when absent. -/
theorem image_defaults (fs : List (String × PyVal)) :
    parseImage (PyVal.dict fs)
        = Except.ok { image_url := pyGetD fs "image_url" (PyVal.str ""),
                      image_type := pyGetD fs "image_type" (PyVal.str "Standard") }
  ∧ (lookupField fs "image_type" = Option.none →
        pyGetD fs "image_type" (PyVal.str "Standard") = PyVal.str "Standard")
  ∧ (lookupField fs "image_url" = Option.none →
        pyGetD fs "image_url" (PyVal.str "") = PyVal.str "") := by
  refine ⟨rfl, ?_, ?_⟩
  · intro h; simp [pyGetD, h]
  · intro h; simp [pyGetD, h]

/-- C9, witness: the empty image object parses to URL `""` and type
`Standard`. -/
theorem image_defaults_witness :
    parseImage (PyVal.dict [])
        = Except.ok { image_url := PyVal.str "", image_type := PyVal.str "Standard" }
  ∧ pyGetD [] "image_type" (PyVal.str "Standard") = PyVal.str "Standard" :=
  ⟨(image_defaults []).1, (image_defaults []).2.1 rfl⟩
